import Mathlib

/-!
Verification development for the brand-monitoring repository.

The repository's visible code is the presentation client; its API client
module (TypeScript) defines the data contracts (`BrandMention`,
`MonitoringStats`, the response envelope) and the HTTP wrapper functions.
We embed those shallowly: each async client function becomes a pure Lean
function whose HTTP call is abstracted as an `Except`-valued outcome
parameter (a rejected promise becomes `Except.error`).  The backend
pipeline (dedup ledger, threat classifier, recommendation engine, mention
store, scheduler) is not part of the visible code; it is modelled from the
specification, and each such definition is marked `Modelled from the spec:`.
-/

namespace BrandMonitor

/-- Sentiment label, from the union type in the `BrandMention` contract. -/
inductive Sentiment where
  | positive
  | negative
  | neutral
deriving DecidableEq, Repr

/-- Threat level, from the union type in the `BrandMention` contract;
the spec orders the four levels low < medium < high < critical. -/
inductive ThreatLevel where
  | low
  | medium
  | high
  | critical
deriving DecidableEq, Repr

/-- Numeric rank of a threat level, realising the ordering from the spec. -/
def ThreatLevel.rank : ThreatLevel → Nat
  | .low => 0
  | .medium => 1
  | .high => 2
  | .critical => 3

/-- Embedding of the `reddit_post` sub-object of `BrandMention`. -/
structure RedditPost where
  id : String
  title : String
  content : String
  author : String
  subreddit : String
  url : String
  score : Int
  num_comments : Int
  created_utc : String
  post_type : String
  permalink : String
deriving DecidableEq, Repr

/-- Embedding of the `sentiment_analysis` sub-object of `BrandMention`;
the numeric scores are modelled as rationals. -/
structure SentimentAnalysis where
  sentiment : Sentiment
  confidence : ℚ
  positive_score : ℚ
  negative_score : ℚ
  neutral_score : ℚ
deriving DecidableEq, Repr

/-- Embedding of the `threat_analysis` sub-object of `BrandMention`. -/
structure ThreatAnalysis where
  threat_level : ThreatLevel
  threat_score : ℚ
  threat_categories : List String
  keywords_matched : List String
  context_analysis : String
  potential_impact : String
deriving DecidableEq, Repr

/-- Embedding of the optional `response_recommendation` sub-object. -/
structure ResponseRecommendation where
  action_type : String
  priority : Nat
  message_template : String
  escalation_needed : Bool
  reasoning : String
deriving DecidableEq, Repr

/-- Embedding of the `BrandMention` contract.  `processed_at` is an ISO-8601
string in the source; since ISO-8601 strings compare like the instants they
denote, it is modelled as a natural-number timestamp. -/
structure BrandMention where
  id : String
  reddit_post : RedditPost
  sentiment_analysis : SentimentAnalysis
  threat_analysis : ThreatAnalysis
  response_recommendation : Option ResponseRecommendation
  processed_at : Nat
  is_reviewed : Bool
  notes : String
  tags : List String
deriving DecidableEq, Repr

/-- Embedding of the `MonitoringStats` contract; `Record<string, number>`
maps become association lists. -/
structure MonitoringStats where
  total_mentions : Nat
  threat_distribution : List (String × Nat)
  sentiment_distribution : List (String × Nat)
  top_subreddits : List (String × Nat)
  trending_keywords : List String
  last_updated : String
deriving DecidableEq, Repr

/-- Embedding of the `APIResponse<T>` envelope `{success, message, data,
error?, timestamp}`; the optional `error` field becomes an `Option`. -/
structure APIResponse (T : Type) where
  success : Bool
  message : String
  data : T
  error : Option String
  timestamp : String
deriving DecidableEq, Repr

/-- Embedding of the result shape of `fetchMonitoringStatus`. -/
structure MonitoringStatus where
  monitor_initialized : Bool
  scheduler_running : Bool
  reddit_client_status : String
  ai_analyzer_status : String
deriving DecidableEq, Repr

/-- Outcome of an awaited axios call: either a response envelope, or a
rejected promise carrying an error message. -/
def ReqOutcome (T : Type) : Type := Except String (APIResponse T)

/-- Embedding of `fetchMonitoringStats` (client module, lines 87-103):
on success it returns `response.data.data`; in the catch branch it returns
the zeroed default stats, with `last_updated` set to the current time
(`new Date().toISOString()`, abstracted as the parameter `now`). -/
def fetchMonitoringStats (r : ReqOutcome MonitoringStats) (now : String) :
    MonitoringStats :=
  match r with
  | .ok resp => resp.data
  | .error _ =>
      { total_mentions := 0
        threat_distribution := []
        sentiment_distribution := []
        top_subreddits := []
        trending_keywords := []
        last_updated := now }

/-- Embedding of `fetchHighPriorityThreats` (lines 105-113): returns
`response.data.data.threats || []` on success (the `|| []` guard is
modelled by an `Option` payload), and `[]` in the catch branch. -/
def fetchHighPriorityThreats (r : ReqOutcome (Option (List BrandMention))) :
    List BrandMention :=
  match r with
  | .ok resp => resp.data.getD []
  | .error _ => []

/-- Embedding of `fetchMonitoringStatus` (lines 187-205): returns
`response.data.data` on success and the fixed degraded record in the
catch branch. -/
def fetchMonitoringStatus (r : ReqOutcome MonitoringStatus) :
    MonitoringStatus :=
  match r with
  | .ok resp => resp.data
  | .error _ =>
      { monitor_initialized := false
        scheduler_running := false
        reddit_client_status := "disconnected"
        ai_analyzer_status := "not_ready" }

/-- JavaScript `x || d` on an optional string: an absent or empty (falsy)
string yields the default. -/
def jsOrElse (x : Option String) (d : String) : String :=
  match x with
  | some s => if s = "" then d else s
  | none => d

/-- Embedding of `fetchRecentMentions` (lines 115-121): no try/catch, so a
rejected request propagates; a fulfilled response with `success: false`
throws `Error(response.data.error || 'Failed to fetch recent mentions')`,
otherwise the mentions payload is returned. -/
def fetchRecentMentions (r : ReqOutcome (List BrandMention)) :
    Except String (List BrandMention) :=
  match r with
  | .error e => .error e
  | .ok resp =>
      if resp.success then .ok resp.data
      else .error (jsOrElse resp.error "Failed to fetch recent mentions")

/-- A JavaScript value as it appears in the `fetchMentions` params record:
`undefined`, `null`, a string, or a number. -/
inductive JsVal where
  | undef
  | null
  | str (s : String)
  | num (n : Int)
deriving DecidableEq, Repr

/-- JavaScript `value.toString()` for the values that reach it in
`fetchMentions` (the guard filters out `undefined` and `null` first). -/
def JsVal.toStringJs : JsVal → String
  | .undef => "undefined"
  | .null => "null"
  | .str s => s
  | .num n => toString n

/-- True exactly on the values the `fetchMentions` guard
`value !== undefined && value !== null` rejects. -/
def JsVal.isSkipped : JsVal → Bool
  | .undef => true
  | .null => true
  | .str _ => false
  | .num _ => false

/-- Embedding of the query-string construction in `fetchMentions`
(lines 133-138): `Object.entries(params).forEach` appends
`(key, value.toString())` exactly when the value is neither `undefined`
nor `null`. -/
def serializeParams (params : List (String × JsVal)) :
    List (String × String) :=
  params.filterMap fun kv =>
    match kv.2 with
    | .undef => none
    | .null => none
    | .str s => some (kv.1, (JsVal.str s).toStringJs)
    | .num n => some (kv.1, (JsVal.num n).toStringJs)

/-- Embedding of `fetchMentions` (lines 123-146): the HTTP layer is
abstracted as a function `r` of the serialized query parameters; on
success it returns `response.data.data`, and in the catch branch it
returns `{ mentions: [], total: 0 }`. -/
def fetchMentions (params : List (String × JsVal))
    (r : List (String × String) → ReqOutcome (List BrandMention × Nat)) :
    List BrandMention × Nat :=
  match r (serializeParams params) with
  | .ok resp => resp.data
  | .error _ => ([], 0)

/-- Modelled from the spec: the backend Threat Classifier's fixed
breakpoint table deriving `threat.level` from `threat.score`
(score < 0.3 low, < 0.6 medium, < 0.85 high, else critical); the backend
implementation is not part of the visible repository code. -/
def threatLevelOf (score : ℚ) : ThreatLevel :=
  if score < 3/10 then .low
  else if score < 6/10 then .medium
  else if score < 85/100 then .high
  else .critical

/-- Modelled from the spec: the Sentiment Scorer's output record; the
label is the argmax class and the confidence equals the maximum of the
three per-class scores (the backend scorer is not part of the visible
repository code). -/
def mkSentimentAnalysis (pos neg neu : ℚ) : SentimentAnalysis :=
  { sentiment :=
      if neg ≤ pos ∧ neu ≤ pos then .positive
      else if neu ≤ neg then .negative
      else .neutral
    confidence := max pos (max neg neu)
    positive_score := pos
    negative_score := neg
    neutral_score := neu }

/-- Modelled from the spec: the Threat Classifier's tunable configuration —
a brand-risk lexicon and a weighting function over post, sentiment and
matched keywords; the spec leaves the exact weighting as configuration. -/
structure ThreatConfig where
  lexicon : List String
  categoriesOf : List String → List String
  scoreFn : RedditPost → SentimentAnalysis → List String → ℚ

/-- Words of a post, for lexicon matching. -/
def postWords (p : RedditPost) : List String :=
  p.title.splitOn " " ++ p.content.splitOn " "

/-- Modelled from the spec: `classify(post, sentiment) → ThreatAnalysis` —
keyword matching against the configured lexicon combined with the
sentiment result through the configured weighting, the raw score clamped
into [0,1], and the level derived from the score via the breakpoint
table. -/
def classify (cfg : ThreatConfig) (p : RedditPost) (sent : SentimentAnalysis) :
    ThreatAnalysis :=
  let matched := cfg.lexicon.filter fun k => (postWords p).contains k
  let score := max 0 (min 1 (cfg.scoreFn p sent matched))
  { threat_level := threatLevelOf score
    threat_score := score
    threat_categories := cfg.categoriesOf matched
    keywords_matched := matched
    context_analysis := ""
    potential_impact := "" }

/-- Modelled from the spec: the Recommendation Engine's configuration —
the recommendation threshold on the threat score (default 0.7), the
priority assigned to medium-level threats (the spec allows 2-3), and the
engagement virality threshold for escalation. -/
structure RecConfig where
  threshold : ℚ
  mediumPriority : Nat
  viralityThreshold : Int

/-- Modelled from the spec: priority derived from threat level
(critical maps to 5, high to 4, medium to the configured 2-3 value; the
low arm is never used because a low score is below the threshold). -/
def priorityOfLevel (cfg : RecConfig) : ThreatLevel → Nat
  | .critical => 5
  | .high => 4
  | .medium => cfg.mediumPriority
  | .low => 1

/-- Modelled from the spec: `recommend(mention) → Recommendation | none` —
produced exactly when `threat.score ≥ threshold`; `escalation_needed` is
true iff the level is high or critical and engagement exceeds the
virality threshold. -/
def recommend (cfg : RecConfig) (p : RedditPost) (t : ThreatAnalysis) :
    Option ResponseRecommendation :=
  if cfg.threshold ≤ t.threat_score then
    some { action_type := "respond"
           priority := priorityOfLevel cfg t.threat_level
           message_template := ""
           escalation_needed :=
             decide ((t.threat_level = .high ∨ t.threat_level = .critical) ∧
               cfg.viralityThreshold < p.score)
           reasoning := "" }
  else none

/-- Modelled from the spec: the Mention Store query filters
`{threatLevel?, sentiment?, community?, dateRange?}`. -/
structure MentionFilters where
  threat_level : Option ThreatLevel
  sentiment : Option Sentiment
  subreddit : Option String
  start_date : Option Nat
  end_date : Option Nat

/-- Modelled from the spec: conjunction of the present filters against one
stored Mention — each present filter must match exactly. -/
def matchesFilters (f : MentionFilters) (m : BrandMention) : Bool :=
  (match f.threat_level with
   | some l => decide (m.threat_analysis.threat_level = l)
   | none => true) &&
  (match f.sentiment with
   | some s => decide (m.sentiment_analysis.sentiment = s)
   | none => true) &&
  (match f.subreddit with
   | some c => decide (m.reddit_post.subreddit = c)
   | none => true) &&
  (match f.start_date with
   | some d => decide (d ≤ m.processed_at)
   | none => true) &&
  (match f.end_date with
   | some d => decide (m.processed_at ≤ d)
   | none => true)

/-- Comparator realising the default ordering `processed_at` descending. -/
def byDescProcessed (a b : BrandMention) : Bool :=
  decide (b.processed_at ≤ a.processed_at)

/-- Modelled from the spec: the Mention Store query — conjunctive filters,
default ordering `processed_at` descending, then offset/limit pagination;
returns the page and the total count of matching Mentions. -/
def queryMentions (store : List BrandMention) (f : MentionFilters)
    (limit skip : Nat) : List BrandMention × Nat :=
  let matching := store.filter (matchesFilters f)
  let sorted := matching.mergeSort byDescProcessed
  ((sorted.drop skip).take limit, matching.length)

/-- Store-level errors named by the spec. -/
inductive StoreError where
  | NotFound
  | DuplicateMention
deriving DecidableEq, Repr

/-- Modelled from the spec: `review(id, notes) → Mention` — sets
`is_reviewed := true` and merges the notes on the Mention with the given
id, leaving every other field unchanged; fails with `NotFound` when the
id is absent. -/
def reviewMention (store : List BrandMention) (id : String) (notes : String) :
    Except StoreError (BrandMention × List BrandMention) :=
  match store.find? (fun m => m.id == id) with
  | none => .error .NotFound
  | some m =>
      .ok ({ m with is_reviewed := true, notes := notes },
        store.map fun x =>
          if x.id == id then { x with is_reviewed := true, notes := notes }
          else x)

/-- Modelled from the spec: the whole per-post pipeline configuration —
threat classifier, recommendation engine, and the external sentiment
scoring oracle. -/
structure PipelineConfig where
  threatCfg : ThreatConfig
  recCfg : RecConfig
  oracle : String → ℚ × ℚ × ℚ

/-- Modelled from the spec: the sequential per-post pipeline — sentiment
scoring, then threat classification, then the optional recommendation —
assembled into a Mention with a fresh review state. -/
def processPost (cfg : PipelineConfig) (time : Nat) (p : RedditPost) :
    BrandMention :=
  let scores := cfg.oracle (p.title ++ " " ++ p.content)
  let sent := mkSentimentAnalysis scores.1 scores.2.1 scores.2.2
  let threat := classify cfg.threatCfg p sent
  { id := p.id
    reddit_post := p
    sentiment_analysis := sent
    threat_analysis := threat
    response_recommendation := recommend cfg.recCfg p threat
    processed_at := time
    is_reviewed := false
    notes := ""
    tags := [] }

/-- Modelled from the spec: the Monitoring Scheduler's state — the
Running/Stopped flag, the Dedup Ledger of seen upstream post ids, and the
Mention Store contents. -/
structure SchedulerState where
  running : Bool
  seen : List String
  mentions : List BrandMention

/-- Number of stored Mentions whose upstream post id is `pid`. -/
def mentionCount (st : SchedulerState) (pid : String) : Nat :=
  (st.mentions.filter fun m => m.reddit_post.id == pid).length

/-- Modelled from the spec: atomic ingestion of one unseen post — mark the
id seen on the Dedup Ledger and create exactly one Mention in the store. -/
def ingestOne (cfg : PipelineConfig) (time : Nat) (st : SchedulerState)
    (p : RedditPost) : SchedulerState :=
  { st with seen := p.id :: st.seen
            mentions := st.mentions ++ [processPost cfg time p] }

/-- Modelled from the spec: one scan cycle — each candidate post is checked
against the Dedup Ledger; an already-seen post is a no-op, an unseen post
is ingested (the check-then-mark is atomic per post).  Returns the new
state and the count of new mentions found. -/
def scanCycle (cfg : PipelineConfig) (time : Nat) :
    SchedulerState → List RedditPost → SchedulerState × Nat
  | st, [] => (st, 0)
  | st, p :: rest =>
      if st.seen.contains p.id then scanCycle cfg time st rest
      else
        let r := scanCycle cfg time (ingestOne cfg time st p) rest
        (r.1, r.2 + 1)

/-- Modelled from the spec: `triggerManualScan()` — runs one scan cycle
immediately regardless of scheduler state, returning the count of new
mentions found; it does not alter the Running/Stopped state. -/
def triggerManualScan (cfg : PipelineConfig) (time : Nat)
    (st : SchedulerState) (posts : List RedditPost) : Nat × SchedulerState :=
  let r := scanCycle cfg time st posts
  (r.2, r.1)

/-- Well-formedness of a scheduler state: each upstream post id on the
Dedup Ledger has exactly one stored Mention, and ids off the ledger have
none. -/
def StateWF (st : SchedulerState) : Prop :=
  ∀ pid : String, mentionCount st pid = if pid ∈ st.seen then 1 else 0

/-- A concrete post used to instantiate universally quantified theorems. -/
def samplePost : RedditPost :=
  { id := "p1"
    title := "battery issue"
    content := "the battery drains fast"
    author := "u1"
    subreddit := "technology"
    url := ""
    score := 12
    num_comments := 3
    created_utc := ""
    post_type := "text"
    permalink := "" }

/-- A concrete threat-classifier configuration for instantiations. -/
def sampleThreatConfig : ThreatConfig :=
  { lexicon := ["battery"]
    categoriesOf := fun ks => ks
    scoreFn := fun _ _ _ => 9/10 }

/-- A concrete recommendation-engine configuration (the documented default
threshold 0.7) for instantiations. -/
def sampleRecConfig : RecConfig :=
  { threshold := 7/10
    mediumPriority := 2
    viralityThreshold := 100 }

/-- A concrete pipeline configuration for instantiations. -/
def sampleConfig : PipelineConfig :=
  { threatCfg := sampleThreatConfig
    recCfg := sampleRecConfig
    oracle := fun _ => (1/10, 8/10, 1/10) }

/-- A concrete sentiment record for instantiations. -/
def sampleSentiment : SentimentAnalysis := mkSentimentAnalysis (1/10) (8/10) (1/10)

/-- A concrete threat record, consistent with the breakpoint table, for
instantiations. -/
def sampleThreat : ThreatAnalysis :=
  { threat_level := .critical
    threat_score := 9/10
    threat_categories := []
    keywords_matched := ["battery"]
    context_analysis := ""
    potential_impact := "" }

/-- A concrete stored Mention for instantiations. -/
def sampleMention : BrandMention :=
  { id := "m1"
    reddit_post := samplePost
    sentiment_analysis := sampleSentiment
    threat_analysis := sampleThreat
    response_recommendation := none
    processed_at := 5
    is_reviewed := false
    notes := ""
    tags := [] }

/-- C5: a failing request makes `fetchMonitoringStats` return zeroed stats
with empty distributions and lists, `fetchHighPriorityThreats` return the
empty array, and `fetchMonitoringStatus` return the degraded record
`monitor_initialized = false`, `scheduler_running = false`,
`reddit_client_status = "disconnected"`, `ai_analyzer_status = "not_ready"`,
instead of propagating the error. -/
theorem C5_failing_requests_degrade_to_defaults (e now : String) :
    fetchMonitoringStats (Except.error e) now =
      { total_mentions := 0
        threat_distribution := []
        sentiment_distribution := []
        top_subreddits := []
        trending_keywords := []
        last_updated := now } ∧
    fetchHighPriorityThreats (Except.error e) = [] ∧
    fetchMonitoringStatus (Except.error e) =
      { monitor_initialized := false
        scheduler_running := false
        reddit_client_status := "disconnected"
        ai_analyzer_status := "not_ready" } :=
  ⟨rfl, rfl, rfl⟩

/-- C9: on an envelope with `success = false`, `fetchRecentMentions` throws
an error carrying the envelope's error message, or the fixed message
`"Failed to fetch recent mentions"` when no (non-empty) error message is
present — unlike `fetchMentions`, which returns `([], 0)` on any failing
request. -/
theorem C9_recent_mentions_envelope_error
    (resp : APIResponse (List BrandMention)) (h : resp.success = false) :
    (∀ s, resp.error = some s → s ≠ "" →
      fetchRecentMentions (Except.ok resp) = Except.error s) ∧
    (resp.error = none →
      fetchRecentMentions (Except.ok resp) =
        Except.error "Failed to fetch recent mentions") ∧
    (∀ params e, fetchMentions params (fun _ => Except.error e) = ([], 0)) := by
  refine ⟨?_, ?_, ?_⟩
  · intro s hs hne
    simp [fetchRecentMentions, h, jsOrElse, hs, hne]
  · intro hn
    simp [fetchRecentMentions, h, jsOrElse, hn]
  · intro params e
    rfl

/-- Witness for C9 at a concrete failing envelope. -/
theorem C9_recent_mentions_envelope_error_witness :
    fetchRecentMentions (Except.ok
      { success := false
        message := ""
        data := ([] : List BrandMention)
        error := some "boom"
        timestamp := "" }) = Except.error "boom" :=
  (C9_recent_mentions_envelope_error _ rfl).1 "boom" rfl (by decide)

/-- C10: `fetchMentions` serializes exactly the parameter entries whose
value is neither `undefined` nor `null`, each under its own key with its
string representation, preserving order; `undefined` and `null` entries
are omitted entirely. -/
theorem C10_param_serialization (params : List (String × JsVal)) :
    serializeParams params =
      (params.filter fun kv => !kv.2.isSkipped).map
        fun kv => (kv.1, kv.2.toStringJs) := by
  induction params with
  | nil => rfl
  | cons kv rest ih =>
      obtain ⟨k, v⟩ := kv
      cases v <;>
        simp [serializeParams, JsVal.isSkipped, JsVal.toStringJs,
          List.filterMap_cons] <;>
        simpa [serializeParams] using ih

/-- C4: the sentiment record's confidence equals the maximum of the three
per-class scores, and the three scores need not sum to 1. -/
theorem C4_confidence_equals_max (pos neg neu : ℚ) :
    (mkSentimentAnalysis pos neg neu).confidence =
      max (mkSentimentAnalysis pos neg neu).positive_score
        (max (mkSentimentAnalysis pos neg neu).negative_score
          (mkSentimentAnalysis pos neg neu).neutral_score) ∧
    (∃ p n u : ℚ, p + n + u ≠ 1 ∧
      (mkSentimentAnalysis p n u).confidence = max p (max n u)) :=
  ⟨rfl, ⟨1/2, 1/2, 1/2, by norm_num, rfl⟩⟩

/-- C2: every classified Mention's threat level is the value of the fixed
breakpoint-table function at its threat score; that function is
deterministic and monotonic, with score < 0.3 low, < 0.6 medium,
< 0.85 high, and otherwise critical. -/
theorem C2_threat_level_is_breakpoint_function (cfg : ThreatConfig)
    (p : RedditPost) (sent : SentimentAnalysis) :
    (classify cfg p sent).threat_level =
      threatLevelOf (classify cfg p sent).threat_score ∧
    (∀ s t : ℚ, s ≤ t → (threatLevelOf s).rank ≤ (threatLevelOf t).rank) ∧
    (∀ s : ℚ,
      (s < 3/10 → threatLevelOf s = .low) ∧
      (3/10 ≤ s → s < 6/10 → threatLevelOf s = .medium) ∧
      (6/10 ≤ s → s < 85/100 → threatLevelOf s = .high) ∧
      (85/100 ≤ s → threatLevelOf s = .critical)) := by
  refine ⟨rfl, ?_, ?_⟩
  · intro s t hst
    unfold threatLevelOf
    split_ifs <;> simp [ThreatLevel.rank] <;> linarith
  · intro s
    refine ⟨?_, ?_, ?_, ?_⟩
    · intro h1
      simp [threatLevelOf, h1]
    · intro h1 h2
      simp [threatLevelOf, not_lt.mpr h1, h2]
    · intro h1 h2
      have h0 : ¬ s < 3/10 := not_lt.mpr (by linarith)
      simp [threatLevelOf, h0, not_lt.mpr h1, h2]
    · intro h1
      have h0 : ¬ s < 3/10 := not_lt.mpr (by linarith)
      have h6 : ¬ s < 6/10 := not_lt.mpr (by linarith)
      simp [threatLevelOf, h0, h6, not_lt.mpr h1]

/-- Witness for C2 at concrete scores on both sides of each breakpoint. -/
theorem C2_threat_level_is_breakpoint_function_witness :
    (threatLevelOf (1/10) = .low ∧ threatLevelOf (4/10) = .medium ∧
      threatLevelOf (7/10) = .high ∧ threatLevelOf (9/10) = .critical) ∧
    (threatLevelOf 0).rank ≤ (threatLevelOf 1).rank := by
  have h := C2_threat_level_is_breakpoint_function sampleThreatConfig
    samplePost sampleSentiment
  refine ⟨⟨?_, ?_, ?_, ?_⟩, ?_⟩
  · exact (h.2.2 (1/10)).1 (by norm_num)
  · exact (h.2.2 (4/10)).2.1 (by norm_num) (by norm_num)
  · exact (h.2.2 (7/10)).2.2.1 (by norm_num) (by norm_num)
  · exact (h.2.2 (9/10)).2.2.2 (by norm_num)
  · exact h.2.1 0 1 (by norm_num)

/-- The breakpoint table yields `low` exactly below 0.3. -/
theorem threatLevelOf_eq_low_iff (s : ℚ) :
    threatLevelOf s = .low ↔ s < 3/10 := by
  unfold threatLevelOf
  split_ifs <;> simp_all

/-- C3: the recommendation is present iff the threat score reaches the
configured threshold; when present its priority follows the threat level
(critical 5, high 4, medium within the configured 2-3), and a low-level
Mention gets no recommendation (a low score lies under the threshold,
which is at least 0.3). -/
theorem C3_recommendation_threshold (cfg : RecConfig) (p : RedditPost)
    (t : ThreatAnalysis)
    (hwf : t.threat_level = threatLevelOf t.threat_score)
    (hth : 3/10 ≤ cfg.threshold)
    (hm2 : 2 ≤ cfg.mediumPriority) (hm3 : cfg.mediumPriority ≤ 3) :
    ((recommend cfg p t).isSome ↔ cfg.threshold ≤ t.threat_score) ∧
    (∀ r, recommend cfg p t = some r →
      (t.threat_level = .critical → r.priority = 5) ∧
      (t.threat_level = .high → r.priority = 4) ∧
      (t.threat_level = .medium → 2 ≤ r.priority ∧ r.priority ≤ 3)) ∧
    (t.threat_level = .low → recommend cfg p t = none) := by
  refine ⟨?_, ?_, ?_⟩
  · unfold recommend
    split_ifs with h <;> simp [h]
  · intro r hr
    unfold recommend at hr
    split_ifs at hr with h
    rw [Option.some_inj] at hr
    refine ⟨?_, ?_, ?_⟩ <;> intro hl <;>
      simp [← hr, priorityOfLevel, hl, hm2, hm3]
  · intro hl
    have hs : t.threat_score < 3/10 :=
      (threatLevelOf_eq_low_iff _).mp (hwf.symm.trans hl)
    unfold recommend
    rw [if_neg (not_le.mpr (lt_of_lt_of_le hs hth))]

/-- Witness for C3 at the sample configuration and a critical threat. -/
theorem C3_recommendation_threshold_witness :
    ((recommend sampleRecConfig samplePost sampleThreat).isSome ↔
      sampleRecConfig.threshold ≤ sampleThreat.threat_score) ∧
    (∀ r, recommend sampleRecConfig samplePost sampleThreat = some r →
      (sampleThreat.threat_level = .critical → r.priority = 5) ∧
      (sampleThreat.threat_level = .high → r.priority = 4) ∧
      (sampleThreat.threat_level = .medium →
        2 ≤ r.priority ∧ r.priority ≤ 3)) ∧
    (sampleThreat.threat_level = .low →
      recommend sampleRecConfig samplePost sampleThreat = none) :=
  C3_recommendation_threshold sampleRecConfig samplePost sampleThreat
    (by norm_num [sampleThreat, threatLevelOf])
    (by norm_num [sampleRecConfig])
    (by norm_num [sampleRecConfig])
    (by norm_num [sampleRecConfig])

/-- C7: reviewing an existing Mention id yields that Mention with
`is_reviewed = true` and the given notes, all analysis fields (threat,
sentiment) and every other field unchanged; reviewing an absent id fails
with `NotFound`. -/
theorem C7_review_frame (store : List BrandMention) (id notes : String) :
    (∀ m, store.find? (fun x => x.id == id) = some m →
      ∃ m2 st2, reviewMention store id notes = .ok (m2, st2) ∧
        m2.is_reviewed = true ∧
        m2.notes = notes ∧
        m2.threat_analysis = m.threat_analysis ∧
        m2.sentiment_analysis = m.sentiment_analysis ∧
        m2.id = m.id ∧
        m2.reddit_post = m.reddit_post ∧
        m2.response_recommendation = m.response_recommendation ∧
        m2.processed_at = m.processed_at ∧
        m2.tags = m.tags) ∧
    ((∀ x ∈ store, x.id ≠ id) →
      reviewMention store id notes = .error .NotFound) := by
  constructor
  · intro m hm
    unfold reviewMention
    rw [hm]
    exact ⟨_, _, rfl, rfl, rfl, rfl, rfl, rfl, rfl, rfl, rfl, rfl⟩
  · intro h
    unfold reviewMention
    have hn : store.find? (fun x => x.id == id) = none := by
      rw [List.find?_eq_none]
      intro x hx
      simpa using h x hx
    rw [hn]

/-- Witness for C7 reviewing the sample Mention in a singleton store. -/
theorem C7_review_frame_witness :
    ∃ m2 st2,
      reviewMention [sampleMention] "m1" "followed up" = .ok (m2, st2) ∧
      m2.is_reviewed = true ∧
      m2.notes = "followed up" ∧
      m2.threat_analysis = sampleMention.threat_analysis ∧
      m2.sentiment_analysis = sampleMention.sentiment_analysis ∧
      m2.id = sampleMention.id ∧
      m2.reddit_post = sampleMention.reddit_post ∧
      m2.response_recommendation = sampleMention.response_recommendation ∧
      m2.processed_at = sampleMention.processed_at ∧
      m2.tags = sampleMention.tags :=
  (C7_review_frame [sampleMention] "m1" "followed up").1 sampleMention
    (by simp [sampleMention])

/-- The pipeline embeds the processed post unchanged into the Mention. -/
theorem processPost_reddit_post (cfg : PipelineConfig) (time : Nat)
    (p : RedditPost) : (processPost cfg time p).reddit_post = p := rfl

/-- Unfolding a scan cycle on an already-seen head post. -/
theorem scanCycle_cons_seen (cfg : PipelineConfig) (time : Nat)
    (st : SchedulerState) (p : RedditPost) (rest : List RedditPost)
    (h : st.seen.contains p.id = true) :
    scanCycle cfg time st (p :: rest) = scanCycle cfg time st rest := by
  have hm : p.id ∈ st.seen := by simpa using h
  simp [scanCycle, hm]

/-- Unfolding a scan cycle on an unseen head post. -/
theorem scanCycle_cons_new (cfg : PipelineConfig) (time : Nat)
    (st : SchedulerState) (p : RedditPost) (rest : List RedditPost)
    (h : ¬ st.seen.contains p.id = true) :
    scanCycle cfg time st (p :: rest) =
      ((scanCycle cfg time (ingestOne cfg time st p) rest).1,
        (scanCycle cfg time (ingestOne cfg time st p) rest).2 + 1) := by
  have hm : p.id ∉ st.seen := by simpa using h
  simp [scanCycle, hm]

/-- Ingestion marks the id seen, appends one Mention, and keeps the
Running/Stopped flag. -/
theorem ingestOne_fields (cfg : PipelineConfig) (time : Nat)
    (st : SchedulerState) (p : RedditPost) :
    (ingestOne cfg time st p).running = st.running ∧
    (ingestOne cfg time st p).seen = p.id :: st.seen ∧
    (ingestOne cfg time st p).mentions =
      st.mentions ++ [processPost cfg time p] :=
  ⟨rfl, rfl, rfl⟩

/-- A scan cycle never touches the Running/Stopped flag, and grows the
store by exactly the reported number of new mentions. -/
theorem scanCycle_frame (cfg : PipelineConfig) (time : Nat) :
    ∀ (posts : List RedditPost) (st : SchedulerState),
      (scanCycle cfg time st posts).1.running = st.running ∧
      (scanCycle cfg time st posts).1.mentions.length =
        st.mentions.length + (scanCycle cfg time st posts).2 := by
  intro posts
  induction posts with
  | nil =>
      intro st
      exact ⟨rfl, rfl⟩
  | cons p rest ih =>
      intro st
      by_cases h : st.seen.contains p.id
      · rw [scanCycle_cons_seen cfg time st p rest h]
        exact ih st
      · have h2 := ih (ingestOne cfg time st p)
        rw [scanCycle_cons_new cfg time st p rest h]
        refine ⟨h2.1, ?_⟩
        have h3 : (ingestOne cfg time st p).mentions.length =
            st.mentions.length + 1 := by
          rw [(ingestOne_fields cfg time st p).2.2]
          simp
        show (scanCycle cfg time (ingestOne cfg time st p) rest).1.mentions.length =
          st.mentions.length + ((scanCycle cfg time (ingestOne cfg time st p) rest).2 + 1)
        rw [h2.2, h3]
        omega

/-- The Dedup Ledger after a scan cycle holds exactly the previously seen
ids plus the ids of the scanned posts. -/
theorem scanCycle_seen (cfg : PipelineConfig) (time : Nat) :
    ∀ (posts : List RedditPost) (st : SchedulerState) (pid : String),
      (pid ∈ (scanCycle cfg time st posts).1.seen ↔
        pid ∈ st.seen ∨ pid ∈ posts.map fun p => p.id) := by
  intro posts
  induction posts with
  | nil =>
      intro st pid
      simp [scanCycle]
  | cons p rest ih =>
      intro st pid
      by_cases h : st.seen.contains p.id
      · have hmem : p.id ∈ st.seen := by simpa using h
        rw [scanCycle_cons_seen cfg time st p rest h, ih st pid]
        simp only [List.map_cons, List.mem_cons]
        constructor
        · rintro (h1 | h2)
          · exact Or.inl h1
          · exact Or.inr (Or.inr h2)
        · rintro (h1 | h1 | h2)
          · exact Or.inl h1
          · exact Or.inl (by rw [h1]; exact hmem)
          · exact Or.inr h2
      · rw [scanCycle_cons_new cfg time st p rest h]
        show pid ∈ (scanCycle cfg time (ingestOne cfg time st p) rest).1.seen ↔ _
        rw [ih _ pid, (ingestOne_fields cfg time st p).2.1]
        simp only [List.map_cons, List.mem_cons]
        tauto

/-- A scan cycle preserves well-formedness: each seen id keeps exactly one
stored Mention, each unseen id keeps none. -/
theorem scanCycle_wf (cfg : PipelineConfig) (time : Nat) :
    ∀ (posts : List RedditPost) (st : SchedulerState),
      StateWF st → StateWF (scanCycle cfg time st posts).1 := by
  intro posts
  induction posts with
  | nil =>
      intro st h
      exact h
  | cons p rest ih =>
      intro st hwf
      by_cases h : st.seen.contains p.id
      · rw [scanCycle_cons_seen cfg time st p rest h]
        exact ih st hwf
      · rw [scanCycle_cons_new cfg time st p rest h]
        show StateWF (scanCycle cfg time (ingestOne cfg time st p) rest).1
        apply ih
        intro pid
        have hnm : p.id ∉ st.seen := by simpa using h
        by_cases hp : pid = p.id
        · have hpid : pid ∈ p.id :: st.seen := by
            rw [hp]
            exact List.mem_cons_self _ _
          have h0 : mentionCount st pid = 0 := by
            rw [hwf pid, if_neg (fun hmem => hnm (hp ▸ hmem))]
          unfold mentionCount at h0 ⊢
          rw [(ingestOne_fields cfg time st p).2.2,
            (ingestOne_fields cfg time st p).2.1, if_pos hpid,
            List.filter_append, List.length_append, h0]
          simp [processPost_reddit_post, hp]
        · have hcount : mentionCount (ingestOne cfg time st p) pid =
              mentionCount st pid := by
            unfold mentionCount
            rw [(ingestOne_fields cfg time st p).2.2]
            have hne : ((processPost cfg time p).reddit_post.id == pid) = false := by
              rw [processPost_reddit_post]
              exact beq_eq_false_iff_ne.mpr fun hx => hp hx.symm
            simp [List.filter_append, hne]
          rw [hcount, hwf pid, (ingestOne_fields cfg time st p).2.1]
          simp [List.mem_cons, hp]

/-- C1: starting from any well-formed state, scanning a candidate list in
which a given upstream post id occurs (any number of times, also when the
id was already processed earlier) leaves exactly one stored Mention for
that id, and the state stays well-formed, so the property persists across
any number of further scans. -/
theorem C1_ingestion_idempotent (cfg : PipelineConfig) (time : Nat)
    (st : SchedulerState) (posts : List RedditPost) (pid : String)
    (hwf : StateWF st)
    (hp : pid ∈ st.seen ∨ ∃ p ∈ posts, p.id = pid) :
    mentionCount (scanCycle cfg time st posts).1 pid = 1 ∧
    StateWF (scanCycle cfg time st posts).1 := by
  have hwf2 := scanCycle_wf cfg time posts st hwf
  have hseen : pid ∈ (scanCycle cfg time st posts).1.seen := by
    rw [scanCycle_seen cfg time posts st pid]
    rcases hp with h1 | ⟨p, hmem, hid⟩
    · exact Or.inl h1
    · exact Or.inr (List.mem_map.mpr ⟨p, hmem, hid⟩)
  exact ⟨by rw [hwf2 pid, if_pos hseen], hwf2⟩

/-- Witness for C1: the sample post scanned twice from the empty state
leaves exactly one Mention for its id. -/
theorem C1_ingestion_idempotent_witness :
    mentionCount (scanCycle sampleConfig 0
      { running := true, seen := [], mentions := [] }
      [samplePost, samplePost]).1 "p1" = 1 ∧
    StateWF (scanCycle sampleConfig 0
      { running := true, seen := [], mentions := [] }
      [samplePost, samplePost]).1 :=
  C1_ingestion_idempotent sampleConfig 0
    { running := true, seen := [], mentions := [] }
    [samplePost, samplePost] "p1"
    (by intro pid; simp [mentionCount])
    (Or.inr ⟨samplePost, by simp, rfl⟩)

/-- C8: a manual scan returns the count of new mentions found (the store
grows by exactly that count) and leaves the Running/Stopped flag
unchanged; in particular a call while Stopped leaves the scheduler
Stopped. -/
theorem C8_manual_scan_keeps_state (cfg : PipelineConfig) (time : Nat)
    (st : SchedulerState) (posts : List RedditPost) :
    (triggerManualScan cfg time st posts).2.running = st.running ∧
    (triggerManualScan cfg time st posts).2.mentions.length =
      st.mentions.length + (triggerManualScan cfg time st posts).1 ∧
    (st.running = false →
      (triggerManualScan cfg time st posts).2.running = false) := by
  obtain ⟨h1, h2⟩ := scanCycle_frame cfg time posts st
  exact ⟨h1, h2, fun h => h1.trans h⟩

/-- Witness for C8: a manual scan from a Stopped scheduler stays Stopped. -/
theorem C8_manual_scan_keeps_state_witness :
    (triggerManualScan sampleConfig 0
      { running := false, seen := [], mentions := [] }
      [samplePost]).2.running = false :=
  (C8_manual_scan_keeps_state sampleConfig 0
    { running := false, seen := [], mentions := [] } [samplePost]).2.2 rfl

/-- The descending comparator is transitive. -/
theorem byDescProcessed_trans : ∀ a b c : BrandMention,
    byDescProcessed a b → byDescProcessed b c → byDescProcessed a c := by
  intro a b c hab hbc
  simp only [byDescProcessed, decide_eq_true_eq] at hab hbc ⊢
  exact le_trans hbc hab

/-- The descending comparator is total. -/
theorem byDescProcessed_total : ∀ a b : BrandMention,
    byDescProcessed a b || byDescProcessed b a := by
  intro a b
  simp only [byDescProcessed, Bool.or_eq_true, decide_eq_true_eq]
  exact Nat.le_total b.processed_at a.processed_at

/-- A Mention passing the conjunctive filters matches a present
threat-level filter exactly. -/
theorem matchesFilters_threat (f : MentionFilters) (m : BrandMention)
    (hmf : matchesFilters f m = true) (l : ThreatLevel)
    (hf : f.threat_level = some l) :
    m.threat_analysis.threat_level = l := by
  unfold matchesFilters at hmf
  rw [hf] at hmf
  simp only [Bool.and_eq_true, decide_eq_true_eq] at hmf
  tauto

/-- C6: every Mention returned by a query satisfies all present filters
conjunctively — under a `threat_level = high` filter its stored level is
exactly `high` — the returned page is ordered by `processed_at`
descending, and the reported total counts exactly the matching
Mentions. -/
theorem C6_query_filters_and_ordering (store : List BrandMention)
    (f : MentionFilters) (limit skip : Nat) :
    (∀ m ∈ (queryMentions store f limit skip).1,
      matchesFilters f m = true ∧
      (f.threat_level = some .high →
        m.threat_analysis.threat_level = .high)) ∧
    List.Pairwise (fun a b => b.processed_at ≤ a.processed_at)
      (queryMentions store f limit skip).1 ∧
    (queryMentions store f limit skip).2 =
      (store.filter (matchesFilters f)).length := by
  refine ⟨?_, ?_, rfl⟩
  · intro m hm
    have hms : m ∈ (store.filter (matchesFilters f)).mergeSort
        byDescProcessed :=
      List.drop_subset _ _ (List.take_subset _ _ hm)
    have hmf : matchesFilters f m = true :=
      (List.mem_filter.mp (List.mem_mergeSort.mp hms)).2
    exact ⟨hmf, fun hf => matchesFilters_threat f m hmf .high hf⟩
  · have hs := List.sorted_mergeSort byDescProcessed_trans
      byDescProcessed_total (store.filter (matchesFilters f))
    have hsub : List.Sublist (queryMentions store f limit skip).1
        ((store.filter (matchesFilters f)).mergeSort byDescProcessed) :=
      (List.take_sublist _ _).trans (List.drop_sublist _ _)
    exact (hs.sublist hsub).imp fun hab => of_decide_eq_true hab

/-- A Mention at threat level high, for the C6 witness. -/
def sampleMentionHigh : BrandMention :=
  { sampleMention with
      id := "m2"
      threat_analysis := { sampleThreat with threat_level := .high
                                             threat_score := 7/10 } }

/-- The threat-level-high filter, for the C6 witness. -/
def highFilter : MentionFilters :=
  { threat_level := some .high
    sentiment := none
    subreddit := none
    start_date := none
    end_date := none }

/-- Witness for C6 on a concrete singleton store and a high filter. -/
theorem C6_query_filters_and_ordering_witness :
    matchesFilters highFilter sampleMentionHigh = true ∧
    (highFilter.threat_level = some .high →
      sampleMentionHigh.threat_analysis.threat_level = .high) :=
  (C6_query_filters_and_ordering [sampleMentionHigh] highFilter 1 0).1
    sampleMentionHigh
    (by simp [queryMentions, matchesFilters, highFilter, sampleMentionHigh,
      sampleThreat])

end BrandMonitor
